import Mathlib

/-!
Shallow embedding of the DSV4L2 capture-device abstraction layer
(sources: src/dsv4l2/src/dsv4l2_core.c, dsv4l2_tempest.c, dsv4l2_profiles.c,
src/dsv4l2/include/dsv4l2_core.h).

C pointers that may be NULL are modelled as `Option`; machine integers are
modelled as `Nat`/`Int` with explicit wrapping where an overflowing
conversion occurs in the source; kernel ioctls are modelled by an explicit
`Kernel` oracle supplying their results, and every issued ioctl is recorded
in an `Ioctl` trace so that theorems can speak about which device operations
a call performs.  Event logging (the dsv4l2rt ring) is modelled as an
`Event` trace.
-/

namespace DSV4L2

/-- Linux errno value used by the sources (`EINVAL`). -/
def EINVAL : Int := 22

/-- Linux errno value used by the sources (`EACCES`). -/
def EACCES : Int := 13

/-- Linux errno value used by the sources (`ENOENT`). -/
def ENOENT : Int := 2

/-- TEMPEST emission state (`dsv4l2_tempest_state_t`).  The enum header
`dsv4l2_tempest.h` is not in the source tree; the four states and their
order are taken from its uses in the sources. -/
inductive TempestState
  | DISABLED
  | LOW
  | HIGH
  | LOCKDOWN
deriving Repr, DecidableEq

/-- Modelled from the spec: the numeric encoding `DISABLED(0) < LOW(1) <
HIGH(2) < LOCKDOWN(3)` of `dsv4l2_tempest_state_t`, which the spec fixes as
part of the external ABI (the defining header is not in the source tree). -/
def TempestState.toNat : TempestState → Nat
  | .DISABLED => 0
  | .LOW => 1
  | .HIGH => 2
  | .LOCKDOWN => 3

/-- One `(id, value)` control preset of a profile (`dsv4l2_profile_t.controls`). -/
structure CtrlPreset where
  id : Nat
  value : Int
deriving Repr, DecidableEq

/-- The TEMPEST control mapping of a profile (`dsv4l2_profile_t.tempest_control`). -/
structure TempestMapping where
  control_id : Nat
  disabled_value : Int
  low_value : Int
  high_value : Int
  lockdown_value : Int
  auto_detect : Bool
deriving Repr, DecidableEq

/-- `dsv4l2_profile_t` (dsv4l2_core.h).  Fixed-size C strings are modelled
as `String`; the parser applies the `strncpy` truncations explicitly. -/
structure Profile where
  id : String
  role : String
  device_hint : String
  classification : String
  pixel_format : Nat
  width : Nat
  height : Nat
  fps_num : Nat
  fps_den : Nat
  controls : List CtrlPreset
  num_controls : Int
  tempest_control : TempestMapping
  meta_device_path : String
  meta_format : Nat
  buffer_count : Int
  constant_time_required : Bool
  quantum_candidate : Bool
deriving Repr, DecidableEq

/-- The all-zero TEMPEST mapping (`calloc` state). -/
def zeroMapping : TempestMapping :=
  { control_id := 0, disabled_value := 0, low_value := 0, high_value := 0
    lockdown_value := 0, auto_detect := false }

/-- The `calloc`-zeroed profile produced at the top of
`dsv4l2_profile_load_from_file` before defaults are applied. -/
def zeroProfile : Profile :=
  { id := "", role := "", device_hint := "", classification := ""
    pixel_format := 0, width := 0, height := 0, fps_num := 0, fps_den := 0
    controls := [], num_controls := 0, tempest_control := zeroMapping
    meta_device_path := "", meta_format := 0, buffer_count := 0
    constant_time_required := false, quantum_candidate := false }

/-- The negotiated pixel format cached in `dev_ex->current_format`
(the fields of `v4l2_pix_format` the sources use). -/
structure PixFormat where
  pixelformat : Nat
  width : Nat
  height : Nat
deriving Repr, DecidableEq

/-- `v4l2_fract` time-per-frame as written by `dsv4l2_set_framerate`. -/
structure TimePerFrame where
  numerator : Nat
  denominator : Nat
deriving Repr, DecidableEq

/-- The part of `v4l2_streamparm` the sources read and write. -/
structure StreamParm where
  timeperframe : TimePerFrame
deriving Repr, DecidableEq

/-- One mmap'd slot of the buffer ring (`buffer_info_t`); the base pointer
is modelled as a `Nat` address. -/
structure BufferInfo where
  start : Nat
  length : Nat
deriving Repr, DecidableEq

instance : Inhabited BufferInfo := ⟨{ start := 0, length := 0 }⟩

/-- `dsv4l2_device_ex_t` (dsv4l2_core.h).  The separate `dev_path_buf` /
`role_buf` storage and the metadata handle are irrelevant to the claims and
are collapsed into the `String` fields. -/
structure DeviceEx where
  fd : Int
  dev_path : String
  role : String
  layer : Nat
  profile : Option Profile
  tempest_state : TempestState
  current_format : Option PixFormat
  current_parm : Option StreamParm
  num_buffers : Nat
  buffers : List BufferInfo
  streaming : Bool
deriving Repr, DecidableEq

/-- A dequeued `v4l2_buffer` as filled in by the DQBUF ioctl. -/
structure V4l2Buffer where
  index : Nat
  bytesused : Nat
  tv_sec : Nat
  tv_usec : Nat
  sequence : Nat
deriving Repr, DecidableEq

/-- An ioctl issued on the device file descriptor.  The trace of these is
what "touching the device" means in the theorems below. -/
inductive Ioctl
  | DQBUF
  | QBUF (index : Nat)
  | G_PARM
  | S_PARM (parm : StreamParm)
  | S_CTRL (id : Nat) (value : Int)
deriving Repr, DecidableEq

/-- An event logged through the dsv4l2rt runtime (the ring itself is out of
scope; only which events a call emits matters to the claims). -/
inductive Event
  | policy_check (context : String) (rc : Int)
  | tempest_transition (old target : TempestState)
  | capture_start
  | capture_end (rc : Int)
  | format_change (pix w h : Nat)
deriving Repr, DecidableEq

instance {α β : Type} [DecidableEq α] [DecidableEq β] : DecidableEq (Except α β)
  | Except.error a, Except.error b =>
      if h : a = b then isTrue (by rw [h])
      else isFalse (by intro hh; cases hh; exact h rfl)
  | Except.error _, Except.ok _ => isFalse (by intro h; cases h)
  | Except.ok _, Except.error _ => isFalse (by intro h; cases h)
  | Except.ok a, Except.ok b =>
      if h : a = b then isTrue (by rw [h])
      else isFalse (by intro hh; cases hh; exact h rfl)

/-- Oracle for the results the kernel returns to the ioctls a call issues:
`Except errno result` for ioctls that produce data, `Option errno` for
ioctls that only succeed or fail. -/
structure Kernel where
  dqbuf : Except Nat V4l2Buffer
  qbuf : Option Nat
  gparm : Except Nat StreamParm
  sparm : Option Nat
deriving Repr, DecidableEq

/-- `dsv4l2_get_tempest_state` (dsv4l2_tempest.c:16-23): a NULL device
yields `DISABLED`; otherwise the cached state is read.  The function is a
pure read. -/
def dsv4l2_get_tempest_state : Option DeviceEx → TempestState
  | none => TempestState.DISABLED
  | some d => d.tempest_state

/-- Result of `dsv4l2_set_tempest_state`. -/
structure SetStateOutcome where
  rc : Int
  dev : Option DeviceEx
  ioctls : List Ioctl
  events : List Event
deriving Repr, DecidableEq

/-- `dsv4l2_set_tempest_state` (dsv4l2_tempest.c:25-50).  The v4l2 control
write is a `TODO` in the source, so no ioctl is issued: the cache is
updated and a `tempest_transition` event is logged. -/
def dsv4l2_set_tempest_state (dev : Option DeviceEx) (target : TempestState) :
    SetStateOutcome :=
  match dev with
  | none => { rc := -EINVAL, dev := none, ioctls := [], events := [] }
  | some d =>
      { rc := 0
        dev := some { d with tempest_state := target }
        ioctls := []
        events := [Event.tempest_transition d.tempest_state target] }

/-- `dsv4l2_policy_check_capture` (dsv4l2_tempest.c:52-73): NULL device is
`-EINVAL`; otherwise the result is `-EACCES` exactly in `LOCKDOWN`, and a
`policy_check` event is logged.  Returns (result, logged events). -/
def dsv4l2_policy_check_capture (dev : Option DeviceEx)
    (current_state : TempestState) (context : String) : Int × List Event :=
  match dev with
  | none => (-EINVAL, [])
  | some _ =>
      let result : Int := if current_state = TempestState.LOCKDOWN then -EACCES else 0
      (result, [Event.policy_check context result])

/-- A generic frame (`dsv4l2_frame_t`); the data pointer is a `Nat` address. -/
structure Frame where
  data : Nat
  len : Nat
  timestamp_ns : Nat
  sequence : Nat
deriving Repr, DecidableEq

/-- A biometric frame (`dsv4l2_biometric_frame_t`); structurally identical
to `Frame` but kept as a distinct type, mirroring the distinct C type with
its distinct sensitivity label. -/
structure BiometricFrame where
  data : Nat
  len : Nat
  timestamp_ns : Nat
  sequence : Nat
deriving Repr, DecidableEq

/-- Result of `dsv4l2_capture_frame`. -/
structure CaptureOutcome where
  rc : Int
  dev : Option DeviceEx
  frame : Option Frame
  ioctls : List Ioctl
  events : List Event
deriving Repr, DecidableEq

/-- Result of `dsv4l2_capture_iris`. -/
structure IrisOutcome where
  rc : Int
  dev : Option DeviceEx
  frame : Option BiometricFrame
  ioctls : List Ioctl
  events : List Event
deriving Repr, DecidableEq

/-- The `tv_sec*1e9 + tv_usec*1e3` timestamp computation of the capture
functions, on 64-bit unsigned arithmetic. -/
def frameTimestamp (buf : V4l2Buffer) : Nat :=
  (buf.tv_sec * 1000000000 + buf.tv_usec * 1000) % 18446744073709551616

/-- `dsv4l2_capture_frame` (dsv4l2_core.c:111-158).  `out_frame_nonnull`
models whether the `out_frame` pointer is non-NULL.  The source indexes
`bufs[buf.index]` without a bounds check; an out-of-range index is modelled
by the `getD` default (the claims do not depend on that case). -/
def dsv4l2_capture_frame (dev : Option DeviceEx) (out_frame_nonnull : Bool)
    (k : Kernel) : CaptureOutcome :=
  match dev with
  | none => { rc := -EINVAL, dev := none, frame := none, ioctls := [], events := [] }
  | some d =>
      if out_frame_nonnull = false then
        { rc := -EINVAL, dev := some d, frame := none, ioctls := [], events := [] }
      else
        let state := dsv4l2_get_tempest_state (some d)
        let pc := dsv4l2_policy_check_capture (some d) state "dsv4l2_capture_frame"
        if pc.1 ≠ 0 then
          { rc := -EACCES, dev := some d, frame := none, ioctls := [], events := pc.2 }
        else if d.streaming = false then
          { rc := -EINVAL, dev := some d, frame := none, ioctls := [], events := pc.2 }
        else
          match k.dqbuf with
          | Except.error e =>
              { rc := -(e : Int), dev := some d, frame := none
                ioctls := [Ioctl.DQBUF], events := pc.2 }
          | Except.ok buf =>
              let slot := d.buffers.getD buf.index default
              let fr : Frame :=
                { data := slot.start, len := buf.bytesused
                  timestamp_ns := frameTimestamp buf, sequence := buf.sequence }
              match k.qbuf with
              | some e =>
                  { rc := -(e : Int), dev := some d, frame := some fr
                    ioctls := [Ioctl.DQBUF, Ioctl.QBUF buf.index], events := pc.2 }
              | none =>
                  { rc := 0, dev := some d, frame := some fr
                    ioctls := [Ioctl.DQBUF, Ioctl.QBUF buf.index]
                    events := pc.2 ++ [Event.capture_start, Event.capture_end 0] }

/-- `dsv4l2_capture_iris` (dsv4l2_core.c:160-206): same body as
`dsv4l2_capture_frame` (duplicated in the source) with the biometric frame
type and its own context string. -/
def dsv4l2_capture_iris (dev : Option DeviceEx) (out_frame_nonnull : Bool)
    (k : Kernel) : IrisOutcome :=
  match dev with
  | none => { rc := -EINVAL, dev := none, frame := none, ioctls := [], events := [] }
  | some d =>
      if out_frame_nonnull = false then
        { rc := -EINVAL, dev := some d, frame := none, ioctls := [], events := [] }
      else
        let state := dsv4l2_get_tempest_state (some d)
        let pc := dsv4l2_policy_check_capture (some d) state "dsv4l2_capture_iris"
        if pc.1 ≠ 0 then
          { rc := -EACCES, dev := some d, frame := none, ioctls := [], events := pc.2 }
        else if d.streaming = false then
          { rc := -EINVAL, dev := some d, frame := none, ioctls := [], events := pc.2 }
        else
          match k.dqbuf with
          | Except.error e =>
              { rc := -(e : Int), dev := some d, frame := none
                ioctls := [Ioctl.DQBUF], events := pc.2 }
          | Except.ok buf =>
              let slot := d.buffers.getD buf.index default
              let fr : BiometricFrame :=
                { data := slot.start, len := buf.bytesused
                  timestamp_ns := frameTimestamp buf, sequence := buf.sequence }
              match k.qbuf with
              | some e =>
                  { rc := -(e : Int), dev := some d, frame := some fr
                    ioctls := [Ioctl.DQBUF, Ioctl.QBUF buf.index], events := pc.2 }
              | none =>
                  { rc := 0, dev := some d, frame := some fr
                    ioctls := [Ioctl.DQBUF, Ioctl.QBUF buf.index]
                    events := pc.2 ++ [Event.capture_start, Event.capture_end 0] }

/-- Result of `dsv4l2_set_framerate`. -/
structure FramerateOutcome where
  rc : Int
  dev : Option DeviceEx
  ioctls : List Ioctl
deriving Repr, DecidableEq

/-- `dsv4l2_set_framerate` (dsv4l2_core.c:346-381): G_PARM, then the
time-per-frame is written with `numerator := fps_den` and
`denominator := fps_num` (the swap noted in the source), then S_PARM, and
on success the written parm is cached in `current_parm`. -/
def dsv4l2_set_framerate (dev : Option DeviceEx) (fps_num fps_den : Nat)
    (k : Kernel) : FramerateOutcome :=
  match dev with
  | none => { rc := -EINVAL, dev := none, ioctls := [] }
  | some d =>
      match k.gparm with
      | Except.error e => { rc := -(e : Int), dev := some d, ioctls := [Ioctl.G_PARM] }
      | Except.ok parm =>
          let parm2 : StreamParm :=
            { parm with timeperframe := { numerator := fps_den, denominator := fps_num } }
          match k.sparm with
          | some e =>
              { rc := -(e : Int), dev := some d
                ioctls := [Ioctl.G_PARM, Ioctl.S_PARM parm2] }
          | none =>
              { rc := 0, dev := some { d with current_parm := some parm2 }
                ioctls := [Ioctl.G_PARM, Ioctl.S_PARM parm2] }

/-- A control as reported by QUERYCTRL during enumeration: its id, its
`name` bytes (a NUL-free C string, as `List Char`), and whether the driver
flags it `V4L2_CTRL_FLAG_DISABLED`. -/
structure QueryCtrl where
  id : Nat
  name : List Char
  disabled : Bool
deriving Repr, DecidableEq

/-- `strncmp`-free prefix test used to model `strstr`: does `needle` start
`hay`? -/
def isPrefixList : List Char → List Char → Bool
  | [], _ => true
  | _ :: _, [] => false
  | a :: as, b :: bs => a == b && isPrefixList as bs

/-- libc `strstr (hay, needle) != NULL`: `needle` occurs contiguously in
`hay`. -/
def strstrB : List Char → List Char → Bool
  | [], needle => needle.isEmpty
  | c :: t, needle => isPrefixList needle (c :: t) || strstrB t needle

/-- The TEMPEST name patterns of `is_tempest_control` (dsv4l2_tempest.c:77-81). -/
def tempestPatterns : List (List Char) :=
  ["tempest".data, "privacy".data, "secure".data, "shutter".data,
   "led".data, "indicator".data, "emission".data, "lockdown".data]

/-- `is_tempest_control` (dsv4l2_tempest.c:76-100): the name is copied into
a 256-byte buffer by `strncpy` (hence the `take 255`), lowercased, and
matched against each pattern with `strstr`. -/
def is_tempest_control (name : List Char) : Bool :=
  let lower_name := (name.take 255).map Char.toLower
  tempestPatterns.any (fun p => strstrB lower_name p)

/-- `tempest_search_ctx_t` (dsv4l2_tempest.c:103-106). -/
structure TempestSearchCtx where
  found_id : Nat
  found : Bool
deriving Repr, DecidableEq

/-- `tempest_search_callback` (dsv4l2_tempest.c:108-118): records the first
matching control and stops the enumeration by returning 1. -/
def tempest_search_callback (q : QueryCtrl) (ctx : TempestSearchCtx) :
    Int × TempestSearchCtx :=
  if is_tempest_control q.name then (1, { found_id := q.id, found := true })
  else (0, ctx)

/-- `dsv4l2_enum_controls` (dsv4l2_core.c:453-479): walks the kernel's
control enumeration in order, skips controls flagged disabled, calls the
callback on the rest and stops when the callback returns nonzero.  The
device's control list `ctrls` models the kernel's QUERYCTRL/NEXT_CTRL
enumeration order. -/
def dsv4l2_enum_controls {α : Type} (cb : QueryCtrl → α → Int × α) :
    List QueryCtrl → α → α
  | [], a => a
  | q :: rest, a =>
      if q.disabled then dsv4l2_enum_controls cb rest a
      else
        let ra := cb q a
        if ra.1 ≠ 0 then ra.2 else dsv4l2_enum_controls cb rest ra.2

/-- `dsv4l2_discover_tempest_control` (dsv4l2_tempest.c:120-140).
`out_nonnull` models the `out_control_id` pointer; the returned `Option`
is the value it stores.  Returns `(-ENOENT, none)` if no control matches. -/
def dsv4l2_discover_tempest_control (dev : Option DeviceEx)
    (out_nonnull : Bool) (ctrls : List QueryCtrl) : Int × Option Nat :=
  match dev with
  | none => (-EINVAL, none)
  | some _ =>
      if out_nonnull = false then (-EINVAL, none)
      else
        let ctx := dsv4l2_enum_controls tempest_search_callback ctrls
          { found_id := 0, found := false }
        if ctx.found then (0, some ctx.found_id) else (-ENOENT, none)

/-- Modelled from the spec: a layer policy entry
(`layer (0..=7) → { max_width, max_height, min_tempest }`).  The policy
table type `dsv4l2_layer_policy_t` lives outside the provided sources; it
is needed only to state claims about the policy gate, which itself is fully
given by `dsv4l2_policy_check_capture` above. -/
structure LayerPolicy where
  max_width : Nat
  max_height : Nat
  min_tempest : TempestState
deriving Repr, DecidableEq

/-- libc `isspace` in the C locale. -/
def isSpaceChar (c : Char) : Bool :=
  c = ' ' || c = '\t' || c = '\n' || c = '\x0b' || c = '\x0c' || c = '\r'

/-- Numeric value of a digit character (0-9, a-f, A-F). -/
def digitVal (c : Char) : Nat :=
  if c.isDigit then c.toNat - 48
  else if 'a' ≤ c && c ≤ 'f' then c.toNat - 87
  else if 'A' ≤ c && c ≤ 'F' then c.toNat - 55
  else 0

/-- Is `c` a digit of the given base (8, 10 or 16)? -/
def isBaseDigit (base : Nat) (c : Char) : Bool :=
  (c.isDigit && (c.toNat - 48) < base) ||
  (base == 16 && (('a' ≤ c && c ≤ 'f') || ('A' ≤ c && c ≤ 'F')))

/-- Accumulate the leading digits of the given base; stops at the first
non-digit, like the libc converters. -/
def parseDigits (base : Nat) : Nat → List Char → Nat
  | acc, [] => acc
  | acc, c :: rest =>
      if isBaseDigit base c then parseDigits base (acc * base + digitVal c) rest
      else acc

/-- libc `atoi`: optional whitespace, optional sign, leading decimal
digits; 0 when no digits.  (Out-of-`int`-range inputs are undefined
behaviour in C and are not wrapped here; no claim depends on them.) -/
def atoi (s : String) : Int :=
  let l := s.data.dropWhile isSpaceChar
  match l with
  | '-' :: rest => -(Int.ofNat (parseDigits 10 0 rest))
  | '+' :: rest => Int.ofNat (parseDigits 10 0 rest)
  | _ => Int.ofNat (parseDigits 10 0 l)

/-- libc `strtoul(s, NULL, 0)` on a 64-bit unsigned long: optional
whitespace and sign, `0x`/`0X` hex or leading-`0` octal or decimal, with
the usual unsigned wraparound of a negated value.  (The `ERANGE`
saturation at `ULONG_MAX` is not modelled; no claim depends on it.) -/
def strtoul0 (s : String) : Nat :=
  let l := s.data.dropWhile isSpaceChar
  let signAndRest : Bool × List Char :=
    match l with
    | '-' :: rest => (true, rest)
    | '+' :: rest => (false, rest)
    | _ => (false, l)
  let n : Nat :=
    match signAndRest.2 with
    | '0' :: 'x' :: rest => parseDigits 16 0 rest
    | '0' :: 'X' :: rest => parseDigits 16 0 rest
    | '0' :: rest => parseDigits 8 0 rest
    | rest => parseDigits 10 0 rest
  if signAndRest.1 then (18446744073709551616 - n % 18446744073709551616) % 18446744073709551616
  else n % 18446744073709551616

/-- Conversion of a C `int` value to `uint32_t` (assignment wraparound). -/
def intToUInt32 (i : Int) : Nat := (i % 4294967296).toNat

/-- `fourcc_to_u32` (dsv4l2_profiles.c:20-28): exactly four characters
packed little-endian, otherwise 0. -/
def fourcc_to_u32 (s : String) : Nat :=
  match s.data with
  | [a, b, c, d] => a.toNat + b.toNat * 256 + c.toNat * 65536 + d.toNat * 16777216
  | _ => 0

/-- `strncpy` of a C string into a zeroed buffer of `n + 1` bytes: keeps
the first `n` characters. -/
def strncpyStr (s : String) (n : Nat) : String := String.mk (s.data.take n)

/-- A libyaml event, as consumed by the parse loop of
`dsv4l2_profile_load_from_file`.  `other` stands for the event kinds the
switch ignores (stream/document starts and ends, aliases). -/
inductive YamlEvent
  | scalar (value : String)
  | seqStart
  | seqEnd
  | mapStart
  | mapEnd
  | streamEnd
  | other
deriving Repr, DecidableEq

/-- The local state of the parse loop of `dsv4l2_profile_load_from_file`
(dsv4l2_profiles.c:66-70): the profile under construction, `current_key`,
the (write-only) `context` buffer and the three nesting flags. -/
structure ParseState where
  profile : Profile
  current_key : String
  context : String
  in_controls : Bool
  in_tempest : Bool
  in_mode_map : Bool
deriving Repr, DecidableEq

/-- The top-level key dispatch of the scalar-value branch
(dsv4l2_profiles.c:90-111), including the `strncpy` truncations.  Note the
source runs this dispatch even while nested inside `tempest_control`. -/
def applyMainKey (key value : String) (p : Profile) : Profile :=
  if key = "id" then { p with id := strncpyStr value 63 }
  else if key = "role" then { p with role := strncpyStr value 31 }
  else if key = "device_hint" then { p with device_hint := strncpyStr value 255 }
  else if key = "classification" then { p with classification := strncpyStr value 63 }
  else if key = "pixel_format" then { p with pixel_format := fourcc_to_u32 value }
  else if key = "fps" then { p with fps_num := intToUInt32 (atoi value), fps_den := 1 }
  else if key = "meta_device" then { p with meta_device_path := strncpyStr value 255 }
  else if key = "buffer_count" then { p with buffer_count := atoi value }
  else if key = "constant_time_required" then
    { p with constant_time_required := value == "true" }
  else if key = "quantum_candidate" then { p with quantum_candidate := value == "true" }
  else p

/-- The `in_tempest` dispatch of the scalar-value branch
(dsv4l2_profiles.c:121-137): `id`, `auto_detect`, and the `mode_map` keys
when `in_mode_map` is set. -/
def applyTempestKey (key value : String) (in_mode_map : Bool) (p : Profile) : Profile :=
  if key = "id" then
    { p with tempest_control :=
        { p.tempest_control with control_id := strtoul0 value % 4294967296 } }
  else if key = "auto_detect" then
    { p with tempest_control := { p.tempest_control with auto_detect := value == "true" } }
  else if in_mode_map then
    if key = "DISABLED" then
      { p with tempest_control := { p.tempest_control with disabled_value := atoi value } }
    else if key = "LOW" then
      { p with tempest_control := { p.tempest_control with low_value := atoi value } }
    else if key = "HIGH" then
      { p with tempest_control := { p.tempest_control with high_value := atoi value } }
    else if key = "LOCKDOWN" then
      { p with tempest_control := { p.tempest_control with lockdown_value := atoi value } }
    else p
  else p

/-- One iteration of the event switch of `dsv4l2_profile_load_from_file`
(dsv4l2_profiles.c:81-179).  Returns the new state and whether the loop is
done (`YAML_STREAM_END_EVENT`).  The `in_controls` scalar branch of the
source is an empty stub (a comment only) and so changes nothing. -/
def yamlStep (s : ParseState) (e : YamlEvent) : ParseState × Bool :=
  match e with
  | YamlEvent.scalar v =>
      if s.current_key = "" then
        ({ s with current_key := strncpyStr v 63 }, false)
      else
        let p1 := applyMainKey s.current_key v s.profile
        let p2 := if s.in_tempest then applyTempestKey s.current_key v s.in_mode_map p1
                  else p1
        ({ s with profile := p2, current_key := "" }, false)
  | YamlEvent.seqStart =>
      if s.current_key = "resolution" then ({ s with context := "resolution" }, false)
      else (s, false)
  | YamlEvent.seqEnd => (s, false)
  | YamlEvent.mapStart =>
      let s2 :=
        if s.current_key = "controls" then { s with in_controls := true }
        else if s.current_key = "tempest_control" then { s with in_tempest := true }
        else if s.current_key = "mode_map" then { s with in_mode_map := true }
        else s
      ({ s2 with current_key := "" }, false)
  | YamlEvent.mapEnd =>
      if s.in_mode_map then ({ s with in_mode_map := false }, false)
      else if s.in_tempest then ({ s with in_tempest := false }, false)
      else if s.in_controls then ({ s with in_controls := false }, false)
      else (s, false)
  | YamlEvent.streamEnd => (s, true)
  | YamlEvent.other => (s, false)

/-- The `while (!done)` loop over the event stream. -/
def runYaml : ParseState → List YamlEvent → ParseState
  | s, [] => s
  | s, e :: rest =>
      let sb := yamlStep s e
      if sb.2 then sb.1 else runYaml sb.1 rest

/-- The profile after `calloc` and the explicit defaults
(dsv4l2_profiles.c:44-53): `buffer_count = 4`, both flags false, every
other field zero. -/
def initProfile : Profile :=
  { zeroProfile with
    buffer_count := 4
    constant_time_required := false
    quantum_candidate := false }

/-- `dsv4l2_profile_load_from_file` (dsv4l2_profiles.c:31-189), on an
already-lexed event stream (libyaml supplies the events; I/O and the
malformed-stream error path are outside the model): runs the parse loop
from the initial state and returns the built profile. -/
def dsv4l2_profile_load_from_file (events : List YamlEvent) : Profile :=
  (runYaml
    { profile := initProfile, current_key := "", context := ""
      in_controls := false, in_tempest := false, in_mode_map := false }
    events).profile

/-! Concrete inputs used by witnesses and counterexamples. -/

/-- A plain open device: not streaming, TEMPEST `DISABLED`, no profile. -/
def baseDev : DeviceEx :=
  { fd := 3, dev_path := "/dev/video0", role := "camera", layer := 0
    profile := none, tempest_state := TempestState.DISABLED
    current_format := none, current_parm := none
    num_buffers := 0, buffers := [], streaming := false }

/-- `baseDev` with the cached TEMPEST state `LOCKDOWN`. -/
def devLockdown : DeviceEx := { baseDev with tempest_state := TempestState.LOCKDOWN }

/-- A kernel oracle: DQBUF would fail with `EAGAIN`, G_PARM succeeds. -/
def exKernel : Kernel :=
  { dqbuf := Except.error 11, qbuf := none
    gparm := Except.ok { timeperframe := { numerator := 1, denominator := 30 } }
    sparm := none }

/-- C10: `dsv4l2_get_tempest_state` on a NULL device returns `DISABLED`
(numeric value 0) rather than an error code, and on a non-null device
returns exactly the cached state.  The source function only reads
`dev_ex->tempest_state`, which the embedding reflects by being a pure
function of the device, so no device field is modified. -/
theorem get_tempest_state_total :
    dsv4l2_get_tempest_state none = TempestState.DISABLED ∧
    TempestState.toNat (dsv4l2_get_tempest_state none) = 0 ∧
    ∀ d : DeviceEx, dsv4l2_get_tempest_state (some d) = d.tempest_state :=
  ⟨rfl, rfl, fun _ => rfl⟩

/-- C1: for every device and every kernel behaviour, if the cached TEMPEST
state is `LOCKDOWN` then both capture calls return `-EACCES`, whatever the
role, layer, profile or streaming flag of the device (the gate has no other
inputs). -/
theorem lockdown_denies_every_capture (d : DeviceEx) (k : Kernel)
    (h : d.tempest_state = TempestState.LOCKDOWN) :
    (dsv4l2_capture_frame (some d) true k).rc = -EACCES ∧
    (dsv4l2_capture_iris (some d) true k).rc = -EACCES := by
  constructor <;>
    simp [dsv4l2_capture_frame, dsv4l2_capture_iris, dsv4l2_policy_check_capture,
      dsv4l2_get_tempest_state, h, EACCES]

theorem lockdown_denies_every_capture_witness :
    devLockdown.tempest_state = TempestState.LOCKDOWN ∧
    (dsv4l2_capture_frame (some devLockdown) true exKernel).rc = -EACCES ∧
    (dsv4l2_capture_iris (some devLockdown) true exKernel).rc = -EACCES :=
  ⟨rfl, (lockdown_denies_every_capture devLockdown exKernel rfl).1,
    (lockdown_denies_every_capture devLockdown exKernel rfl).2⟩

/-- A layer-3 policy capping the format at 1280x720 (spec scenario 7). -/
def exLayerPolicy : LayerPolicy :=
  { max_width := 1280, max_height := 720, min_tempest := TempestState.DISABLED }

/-- A layer-policy table defined only at layer 3. -/
def exLayerTable : Nat → Option LayerPolicy :=
  fun n => if n = 3 then some exLayerPolicy else none

/-- A negotiated 1920x1080 YUYV format, exceeding `exLayerPolicy`. -/
def exFmt1080 : PixFormat := { pixelformat := 1448695129, width := 1920, height := 1080 }

/-- A layer-3 device whose negotiated format exceeds the layer caps. -/
def devOverCap : DeviceEx :=
  { baseDev with layer := 3, current_format := some exFmt1080 }

/-- C2 counterexample: a layer-3 device with a 1280x720 layer policy and a
negotiated 1920x1080 format, in state `DISABLED`; the policy gate
nevertheless allows (returns 0, not `-EACCES`), because
`dsv4l2_policy_check_capture` implements only the LOCKDOWN rule. -/
theorem policy_gate_ignores_layer_cap :
    exLayerTable devOverCap.layer = some exLayerPolicy ∧
    devOverCap.current_format = some exFmt1080 ∧
    exLayerPolicy.max_width < exFmt1080.width ∧
    exLayerPolicy.max_height < exFmt1080.height ∧
    (dsv4l2_policy_check_capture (some devOverCap) devOverCap.tempest_state
      "dsv4l2_capture_frame").1 = 0 := by
  refine ⟨rfl, rfl, by decide, by decide, by decide⟩

/-- C2 (amended): `dsv4l2_policy_check_capture` does not consult layer
policies: even when a layer policy exists for the device's layer and the
negotiated format exceeds its `max_width`/`max_height`, the gate still
returns 0 (allow) whenever the cached TEMPEST state is not `LOCKDOWN`. -/
theorem policy_gate_allows_over_cap_format (table : Nat → Option LayerPolicy)
    (d : DeviceEx) (pol : LayerPolicy) (f : PixFormat) (context : String)
    (hpol : table d.layer = some pol) (hf : d.current_format = some f)
    (hw : pol.max_width < f.width) (hh : pol.max_height < f.height)
    (hs : d.tempest_state ≠ TempestState.LOCKDOWN) :
    (dsv4l2_policy_check_capture (some d) d.tempest_state context).1 = 0 := by
  simp [dsv4l2_policy_check_capture, hs]

theorem policy_gate_allows_over_cap_format_witness :
    exLayerTable devOverCap.layer = some exLayerPolicy ∧
    devOverCap.current_format = some exFmt1080 ∧
    exLayerPolicy.max_width < exFmt1080.width ∧
    exLayerPolicy.max_height < exFmt1080.height ∧
    devOverCap.tempest_state ≠ TempestState.LOCKDOWN ∧
    (dsv4l2_policy_check_capture (some devOverCap) devOverCap.tempest_state
      "dsv4l2_capture_frame").1 = 0 :=
  ⟨rfl, rfl, by decide, by decide, by decide,
    policy_gate_allows_over_cap_format exLayerTable devOverCap exLayerPolicy
      exFmt1080 "dsv4l2_capture_frame" rfl rfl (by decide) (by decide) (by decide)⟩

/-- C3: whenever the policy gate denies (its result on the device's cached
state is nonzero), both capture calls return `-EACCES`, issue no ioctl at
all (in particular no DQBUF or QBUF), and return the device completely
unchanged (streaming flag, buffer ring, cached format, cached TEMPEST
state). -/
theorem denied_capture_touches_nothing (d : DeviceEx) (k : Kernel)
    (h : (dsv4l2_policy_check_capture (some d)
      (dsv4l2_get_tempest_state (some d)) "dsv4l2_capture_frame").1 ≠ 0) :
    ((dsv4l2_capture_frame (some d) true k).rc = -EACCES ∧
     (dsv4l2_capture_frame (some d) true k).ioctls = [] ∧
     (dsv4l2_capture_frame (some d) true k).dev = some d) ∧
    ((dsv4l2_capture_iris (some d) true k).rc = -EACCES ∧
     (dsv4l2_capture_iris (some d) true k).ioctls = [] ∧
     (dsv4l2_capture_iris (some d) true k).dev = some d) := by
  have hL : d.tempest_state = TempestState.LOCKDOWN := by
    by_contra hn
    simp [dsv4l2_policy_check_capture, dsv4l2_get_tempest_state, hn] at h
  refine ⟨⟨?_, ?_, ?_⟩, ?_, ?_, ?_⟩ <;>
    simp [dsv4l2_capture_frame, dsv4l2_capture_iris, dsv4l2_policy_check_capture,
      dsv4l2_get_tempest_state, hL, EACCES]

theorem denied_capture_touches_nothing_witness :
    (dsv4l2_policy_check_capture (some devLockdown)
      (dsv4l2_get_tempest_state (some devLockdown)) "dsv4l2_capture_frame").1 ≠ 0 ∧
    (dsv4l2_capture_frame (some devLockdown) true exKernel).ioctls = [] ∧
    (dsv4l2_capture_iris (some devLockdown) true exKernel).ioctls = [] ∧
    (dsv4l2_capture_frame (some devLockdown) true exKernel).dev = some devLockdown :=
  ⟨by decide,
    (denied_capture_touches_nothing devLockdown exKernel (by decide)).1.2.1,
    (denied_capture_touches_nothing devLockdown exKernel (by decide)).2.2.1,
    (denied_capture_touches_nothing devLockdown exKernel (by decide)).1.2.2⟩

/-- C4 counterexample: a non-streaming device whose cached state is
`LOCKDOWN`; capture returns `-EACCES`, not `-EINVAL`, because the policy
gate runs before the streaming check. -/
theorem capture_not_streaming_lockdown_gives_eacces :
    devLockdown.streaming = false ∧
    (dsv4l2_capture_frame (some devLockdown) true exKernel).rc = -EACCES ∧
    (dsv4l2_capture_frame (some devLockdown) true exKernel).rc ≠ -EINVAL := by
  refine ⟨rfl, by decide, by decide⟩

/-- C4 (amended): for every open device that is not streaming and whose
cached TEMPEST state is not `LOCKDOWN`, both capture calls return
`-EINVAL`. -/
theorem capture_not_streaming_einval (d : DeviceEx) (k : Kernel)
    (hstream : d.streaming = false)
    (hs : d.tempest_state ≠ TempestState.LOCKDOWN) :
    (dsv4l2_capture_frame (some d) true k).rc = -EINVAL ∧
    (dsv4l2_capture_iris (some d) true k).rc = -EINVAL := by
  constructor <;>
    simp [dsv4l2_capture_frame, dsv4l2_capture_iris, dsv4l2_policy_check_capture,
      dsv4l2_get_tempest_state, hs, hstream]

theorem capture_not_streaming_einval_witness :
    baseDev.streaming = false ∧
    baseDev.tempest_state ≠ TempestState.LOCKDOWN ∧
    (dsv4l2_capture_frame (some baseDev) true exKernel).rc = -EINVAL ∧
    (dsv4l2_capture_iris (some baseDev) true exKernel).rc = -EINVAL :=
  ⟨rfl, by decide,
    (capture_not_streaming_einval baseDev exKernel rfl (by decide)).1,
    (capture_not_streaming_einval baseDev exKernel rfl (by decide)).2⟩

/-- A profile with an explicit (non-zero) TEMPEST control mapping. -/
def profWithMapping : Profile :=
  { initProfile with tempest_control := { zeroMapping with control_id := 10094864 } }

/-- A device carrying `profWithMapping`, i.e. with a TEMPEST mapping
installed. -/
def devWithMapping : DeviceEx := { baseDev with profile := some profWithMapping }

/-- C5 counterexample: on a device with a TEMPEST mapping installed
(profile mapping with a non-zero control id), `dsv4l2_set_tempest_state`
issues no ioctl at all — in particular no S_CTRL write of the mapped value
— because the control write is an unimplemented TODO in the source. -/
theorem set_state_writes_no_control :
    devWithMapping.profile = some profWithMapping ∧
    profWithMapping.tempest_control.control_id ≠ 0 ∧
    (dsv4l2_set_tempest_state (some devWithMapping) TempestState.LOCKDOWN).ioctls
      = [] := by
  refine ⟨rfl, by decide, rfl⟩

/-- C5 (amended): for every non-null device and target state,
`dsv4l2_set_tempest_state` returns 0, updates only the cached state to the
target, logs a `tempest_transition(old, target)` event, and performs no
S_CTRL (or any other) ioctl. -/
theorem set_state_updates_cache_and_logs (d : DeviceEx) (target : TempestState) :
    dsv4l2_set_tempest_state (some d) target =
      { rc := 0
        dev := some { d with tempest_state := target }
        ioctls := []
        events := [Event.tempest_transition d.tempest_state target] } := rfl

/-! C6: characterization of auto-discovery. -/

/-- The predicate of the claim, stated independently of the embedding's
`strstr` model: the control is not flagged disabled and some TEMPEST
pattern occurs contiguously (`List.IsInfix`) in its lowercased name. -/
def specTempestMatchB (c : QueryCtrl) : Bool :=
  !c.disabled &&
    tempestPatterns.any (fun p => decide (p <:+: (c.name.map Char.toLower)))

theorem isPrefixList_iff (n : List Char) : ∀ h : List Char,
    isPrefixList n h = true ↔ n <+: h := by
  induction n with
  | nil => intro h; simp [isPrefixList]
  | cons a as ih =>
      intro h
      cases h with
      | nil => simp [isPrefixList]
      | cons b bs => simp [isPrefixList, List.cons_prefix_cons, ih bs]

theorem strstrB_iff (n : List Char) : ∀ hay : List Char,
    strstrB hay n = true ↔ n <:+: hay := by
  intro hay
  induction hay with
  | nil => simp [strstrB, List.isEmpty_iff, List.infix_nil]
  | cons c t ih =>
      simp [strstrB, isPrefixList_iff, ih, List.infix_cons_iff]

theorem is_tempest_control_eq (c : QueryCtrl) (hlen : c.name.length ≤ 255) :
    is_tempest_control c.name =
      tempestPatterns.any (fun p => decide (p <:+: (c.name.map Char.toLower))) := by
  unfold is_tempest_control
  rw [List.take_of_length_le hlen, Bool.eq_iff_iff]
  simp only [List.any_eq_true, strstrB_iff, decide_eq_true_eq]

theorem enum_search_eq_find (ctrls : List QueryCtrl)
    (hlen : ∀ c ∈ ctrls, c.name.length ≤ 255) :
    dsv4l2_enum_controls tempest_search_callback ctrls
        { found_id := 0, found := false } =
      match ctrls.find? specTempestMatchB with
      | some c => { found_id := c.id, found := true }
      | none => { found_id := 0, found := false } := by
  induction ctrls with
  | nil => rfl
  | cons c rest ih =>
      have hc : c.name.length ≤ 255 := hlen c (List.mem_cons_self c rest)
      have hrest : ∀ x ∈ rest, x.name.length ≤ 255 :=
        fun x hx => hlen x (List.mem_cons_of_mem c hx)
      by_cases hdis : c.disabled
      · have hspec : specTempestMatchB c = false := by
          simp [specTempestMatchB, hdis]
        simp only [dsv4l2_enum_controls, hdis, if_true]
        rw [List.find?_cons_of_neg _ (by simp [hspec]), ih hrest]
      · by_cases hmatch : is_tempest_control c.name
        · have hspec : specTempestMatchB c = true := by
            simp [specTempestMatchB, hdis, ← is_tempest_control_eq c hc, hmatch]
          simp only [dsv4l2_enum_controls, hdis, if_false]
          rw [List.find?_cons_of_pos _ hspec]
          simp [tempest_search_callback, hmatch]
        · have hspec : specTempestMatchB c = false := by
            simp [specTempestMatchB, hdis, ← is_tempest_control_eq c hc, hmatch]
          simp only [dsv4l2_enum_controls, hdis, if_false]
          rw [List.find?_cons_of_neg _ (by simp [hspec])]
          simpa [tempest_search_callback, hmatch] using ih hrest

/-- C6: for every device, `dsv4l2_discover_tempest_control` walks the
kernel's control enumeration in order, skips controls flagged disabled, and
returns (0, id of the first control whose lowercased name contains one of
the TEMPEST patterns as a contiguous substring) — or `(-ENOENT, none)` when
no control matches.  The length hypothesis reflects that `v4l2_queryctrl`
names are 32-byte arrays, so the 256-byte `strncpy` truncation inside
`is_tempest_control` never cuts a name. -/
theorem discover_returns_first_match (d : DeviceEx) (ctrls : List QueryCtrl)
    (hlen : ∀ c ∈ ctrls, c.name.length ≤ 255) :
    dsv4l2_discover_tempest_control (some d) true ctrls =
      match ctrls.find? specTempestMatchB with
      | some c => (0, some c.id)
      | none => (-ENOENT, none) := by
  unfold dsv4l2_discover_tempest_control
  rw [enum_search_eq_find ctrls hlen]
  cases hfind : ctrls.find? specTempestMatchB <;> simp

/-- A control list with a disabled TEMPEST-named control before the first
enabled match (spec patterns `privacy` and `led`). -/
def tempestCtrls : List QueryCtrl :=
  [{ id := 1, name := "Brightness".data, disabled := false },
   { id := 7, name := "Privacy Shutter".data, disabled := true },
   { id := 2, name := "Privacy".data, disabled := false },
   { id := 3, name := "LED1 Mode".data, disabled := false }]

/-- A control list with no TEMPEST-like control. -/
def plainCtrls : List QueryCtrl :=
  [{ id := 1, name := "Brightness".data, disabled := false },
   { id := 2, name := "Contrast".data, disabled := false }]

theorem discover_returns_first_match_witness :
    (∀ c ∈ tempestCtrls, c.name.length ≤ 255) ∧
    dsv4l2_discover_tempest_control (some baseDev) true tempestCtrls = (0, some 2) ∧
    (∀ c ∈ plainCtrls, c.name.length ≤ 255) ∧
    dsv4l2_discover_tempest_control (some baseDev) true plainCtrls = (-ENOENT, none) :=
  ⟨by decide,
    by rw [discover_returns_first_match baseDev tempestCtrls (by decide)]; decide,
    by decide,
    by rw [discover_returns_first_match baseDev plainCtrls (by decide)]; decide⟩

/-! C9: framerate numerator/denominator swap. -/

/-- C9: every `S_PARM` ioctl issued by `dsv4l2_set_framerate` writes
`fps_den` into the kernel `timeperframe.numerator` field and `fps_num`
into the `denominator` field — the swap the spec notes, making the
requested time-per-frame `den/num` seconds. -/
theorem set_framerate_swaps_num_den (d : DeviceEx) (k : Kernel)
    (fps_num fps_den : Nat) (p : StreamParm)
    (h : Ioctl.S_PARM p ∈ (dsv4l2_set_framerate (some d) fps_num fps_den k).ioctls) :
    p.timeperframe.numerator = fps_den ∧ p.timeperframe.denominator = fps_num := by
  unfold dsv4l2_set_framerate at h
  cases hg : k.gparm with
  | error e => rw [hg] at h; simp at h
  | ok parm =>
      rw [hg] at h
      cases hs : k.sparm with
      | some e =>
          rw [hs] at h
          simp only [List.mem_cons, List.not_mem_nil, or_false] at h
          rcases h with h | h
          · cases h
          · cases h; exact ⟨rfl, rfl⟩
      | none =>
          rw [hs] at h
          simp only [List.mem_cons, List.not_mem_nil, or_false] at h
          rcases h with h | h
          · cases h
          · cases h; exact ⟨rfl, rfl⟩

/-- The parm `dsv4l2_set_framerate baseDev 30 1 exKernel` writes. -/
def exWrittenParm : StreamParm :=
  { timeperframe := { numerator := 1, denominator := 30 } }

theorem set_framerate_swaps_num_den_witness :
    Ioctl.S_PARM exWrittenParm ∈
      (dsv4l2_set_framerate (some baseDev) 30 1 exKernel).ioctls ∧
    exWrittenParm.timeperframe.numerator = 1 ∧
    exWrittenParm.timeperframe.denominator = 30 :=
  ⟨by decide,
    (set_framerate_swaps_num_den baseDev exKernel 30 1 exWrittenParm (by decide)).1,
    (set_framerate_swaps_num_den baseDev exKernel 30 1 exWrittenParm (by decide)).2⟩

/-! C7: the resolution pair is never consumed. -/

/-- The libyaml event stream for the document `resolution: [1280, 720]`
(stream start, document start, the mapping, document end are `other` /
structural events exactly as libyaml produces them). -/
def resolutionDoc : List YamlEvent :=
  [YamlEvent.other, YamlEvent.other, YamlEvent.mapStart,
   YamlEvent.scalar "resolution", YamlEvent.seqStart,
   YamlEvent.scalar "1280", YamlEvent.scalar "720", YamlEvent.seqEnd,
   YamlEvent.mapEnd, YamlEvent.other, YamlEvent.streamEnd]

/-- C7 (evaluation at the failing input): loading a profile document whose
`resolution` key carries the ordered pair `[1280, 720]` leaves both `width`
and `height` at 0 — the parser records the `resolution` context into a
buffer it never reads, the scalar `1280` falls through every key branch,
and `720` is then mistaken for the next key. -/
theorem resolution_pair_not_loaded :
    (dsv4l2_profile_load_from_file resolutionDoc).width = 0 ∧
    (dsv4l2_profile_load_from_file resolutionDoc).height = 0 := by
  decide

/-! C8: typed defaults of missing fields. -/

/-- The scalar values whose presence (as a `current_key`) can change the
fields the defaults claim is about: the four directly dispatched keys and
`tempest_control`, which opens the nested mapping that can write the
TEMPEST mapping fields. -/
def badKeys : List String :=
  ["fps", "buffer_count", "constant_time_required", "quantum_candidate",
   "tempest_control"]

/-- The default field values the (amended) claim asserts:
`buffer_count = 4`, both flags false, TEMPEST mapping all zero — and
`fps_den = 0`, not 1. -/
def defaultsHold (p : Profile) : Prop :=
  p.buffer_count = 4 ∧ p.constant_time_required = false ∧
  p.quantum_candidate = false ∧ p.tempest_control = zeroMapping ∧
  p.fps_den = 0

/-- Invariant of the parse loop while the document never mentions a
`badKeys` scalar: the defaulted fields are untouched, the parser is not
inside `tempest_control`, and the pending key is not one of `badKeys`. -/
def ParserInv (s : ParseState) : Prop :=
  defaultsHold s.profile ∧ s.in_tempest = false ∧ s.current_key ∉ badKeys

theorem applyMainKey_defaults (key value : String) (p : Profile)
    (h : key ∉ badKeys) (hd : defaultsHold p) :
    defaultsHold (applyMainKey key value p) := by
  simp only [badKeys, List.mem_cons, List.not_mem_nil, or_false, not_or] at h
  obtain ⟨h1, h2, h3, h4, _⟩ := h
  obtain ⟨d1, d2, d3, d4, d5⟩ := hd
  unfold applyMainKey defaultsHold
  split_ifs <;> simp_all

theorem yamlStep_inv (s : ParseState) (e : YamlEvent)
    (hInv : ParserInv s)
    (hscalar : ∀ v, e = YamlEvent.scalar v → strncpyStr v 63 ∉ badKeys) :
    ParserInv (yamlStep s e).1 := by
  obtain ⟨p, ck, ctx, ic, it, imm⟩ := s
  obtain ⟨hd0, ht, hk0⟩ := hInv
  have hd : defaultsHold p := hd0
  have hk : ck ∉ badKeys := hk0
  have ht2 : it = false := ht
  subst ht2
  cases e with
  | scalar v =>
      have hs := hscalar v rfl
      by_cases hck : ck = ""
      · subst hck
        exact ⟨hd, rfl, hs⟩
      · simp only [yamlStep, ParserInv]
        rw [if_neg hck]
        exact ⟨applyMainKey_defaults ck v p hk hd, rfl,
          (by decide : ("" : String) ∉ badKeys)⟩
  | seqStart =>
      by_cases hck : ck = "resolution"
      · subst hck; exact ⟨hd, rfl, hk⟩
      · simp only [yamlStep, ParserInv]
        rw [if_neg hck]
        exact ⟨hd, rfl, hk⟩
  | seqEnd => exact ⟨hd, rfl, hk⟩
  | mapStart =>
      by_cases h1 : ck = "controls"
      · subst h1; exact ⟨hd, rfl, (by decide : ("" : String) ∉ badKeys)⟩
      · by_cases h2 : ck = "tempest_control"
        · exact absurd h2 (fun hc => by subst hc; exact hk (by decide))
        · by_cases h3 : ck = "mode_map"
          · subst h3; exact ⟨hd, rfl, (by decide : ("" : String) ∉ badKeys)⟩
          · simp only [yamlStep, ParserInv]
            rw [if_neg h1, if_neg h2, if_neg h3]
            exact ⟨hd, rfl, (by decide : ("" : String) ∉ badKeys)⟩
  | mapEnd =>
      cases imm <;> cases ic <;> exact ⟨hd, rfl, hk⟩
  | streamEnd => exact ⟨hd, rfl, hk⟩
  | other => exact ⟨hd, rfl, hk⟩

theorem runYaml_inv (events : List YamlEvent) : ∀ s : ParseState, ParserInv s →
    (∀ v, YamlEvent.scalar v ∈ events → strncpyStr v 63 ∉ badKeys) →
    ParserInv (runYaml s events) := by
  induction events with
  | nil => intro s h _; exact h
  | cons e rest ih =>
      intro s h hsc
      have hstep := yamlStep_inv s e h
        (fun v hv => hsc v (by rw [← hv]; exact List.mem_cons_self e rest))
      unfold runYaml
      by_cases hdone : (yamlStep s e).2 = true
      · simp only [hdone, if_true]; exact hstep
      · simp only [hdone, if_false]
        exact ih (yamlStep s e).1 hstep
          (fun v hv => hsc v (List.mem_cons_of_mem e hv))

theorem take63_mem_badKeys (v : String) (h : strncpyStr v 63 ∈ badKeys) :
    v ∈ badKeys := by
  have hgen : ∀ m : List Char, m.length < 63 → v.data.take 63 = m → v.data = m := by
    intro m hm heq
    rcases le_or_lt v.data.length 63 with hle | hgt
    · rw [List.take_of_length_le hle] at heq; exact heq
    · exfalso
      have h63 : (v.data.take 63).length = 63 := by
        rw [List.length_take]; omega
      rw [heq] at h63; omega
  have hstr : ∀ w : String, w.data.length < 63 → strncpyStr v 63 = w → v = w := by
    intro w hwlen hw
    have h1 : v.data.take 63 = w.data := congrArg String.data hw
    have h2 := hgen w.data hwlen h1
    cases v; cases w; exact congrArg String.mk h2
  simp only [badKeys, List.mem_cons, List.not_mem_nil, or_false] at h ⊢
  rcases h with h | h | h | h | h
  · exact Or.inl (hstr _ (by decide) h)
  · exact Or.inr (Or.inl (hstr _ (by decide) h))
  · exact Or.inr (Or.inr (Or.inl (hstr _ (by decide) h)))
  · exact Or.inr (Or.inr (Or.inr (Or.inl (hstr _ (by decide) h))))
  · exact Or.inr (Or.inr (Or.inr (Or.inr (hstr _ (by decide) h))))

/-- C8 (amended): for every profile document that never mentions, as a
scalar, any of `fps`, `buffer_count`, `constant_time_required`,
`quantum_candidate` or `tempest_control` — in particular every document in
which those recognized fields are missing — the loaded profile keeps the
typed defaults `buffer_count = 4`, `constant_time_required = false`,
`quantum_candidate = false`, TEMPEST mapping all zero, and `fps_den = 0`
(not 1: `fps_den` is only ever set, to 1, when an `fps` key is parsed). -/
theorem missing_fields_take_defaults (events : List YamlEvent)
    (h : ∀ v, YamlEvent.scalar v ∈ events → v ∉ badKeys) :
    (dsv4l2_profile_load_from_file events).buffer_count = 4 ∧
    (dsv4l2_profile_load_from_file events).constant_time_required = false ∧
    (dsv4l2_profile_load_from_file events).quantum_candidate = false ∧
    (dsv4l2_profile_load_from_file events).tempest_control = zeroMapping ∧
    (dsv4l2_profile_load_from_file events).fps_den = 0 := by
  have hinit : ParserInv
      { profile := initProfile, current_key := "", context := ""
        in_controls := false, in_tempest := false, in_mode_map := false } := by
    refine ⟨⟨rfl, rfl, rfl, rfl, rfl⟩, rfl, by decide⟩
  have h2 : ∀ v, YamlEvent.scalar v ∈ events → strncpyStr v 63 ∉ badKeys :=
    fun v hv hmem => h v hv (take63_mem_badKeys v hmem)
  exact (runYaml_inv events _ hinit h2).1

/-- The libyaml event stream of an empty document `{}`. -/
def emptyDoc : List YamlEvent :=
  [YamlEvent.other, YamlEvent.other, YamlEvent.mapStart, YamlEvent.mapEnd,
   YamlEvent.other, YamlEvent.streamEnd]

/-- C8 counterexample: a document with every recognized field missing loads
with `fps_den = 0`, not the claimed default 1. -/
theorem missing_fps_den_is_zero :
    (dsv4l2_profile_load_from_file emptyDoc).fps_den = 0 ∧
    (dsv4l2_profile_load_from_file emptyDoc).fps_den ≠ 1 := by
  decide

/-- A document mentioning only `role: camera`. -/
def roleOnlyDoc : List YamlEvent :=
  [YamlEvent.other, YamlEvent.other, YamlEvent.mapStart,
   YamlEvent.scalar "role", YamlEvent.scalar "camera",
   YamlEvent.mapEnd, YamlEvent.other, YamlEvent.streamEnd]

theorem missing_fields_take_defaults_witness :
    (∀ v, YamlEvent.scalar v ∈ roleOnlyDoc → v ∉ badKeys) ∧
    (dsv4l2_profile_load_from_file roleOnlyDoc).buffer_count = 4 ∧
    (dsv4l2_profile_load_from_file roleOnlyDoc).constant_time_required = false ∧
    (dsv4l2_profile_load_from_file roleOnlyDoc).quantum_candidate = false ∧
    (dsv4l2_profile_load_from_file roleOnlyDoc).tempest_control = zeroMapping ∧
    (dsv4l2_profile_load_from_file roleOnlyDoc).fps_den = 0 := by
  have hp : ∀ v, YamlEvent.scalar v ∈ roleOnlyDoc → v ∉ badKeys := by
    intro v hv
    simp only [roleOnlyDoc, List.mem_cons, List.not_mem_nil, or_false] at hv
    rcases hv with hv | hv | hv | hv | hv | hv | hv | hv <;> (cases hv) <;> decide
  exact ⟨hp, (missing_fields_take_defaults roleOnlyDoc hp).1,
    (missing_fields_take_defaults roleOnlyDoc hp).2.1,
    (missing_fields_take_defaults roleOnlyDoc hp).2.2.1,
    (missing_fields_take_defaults roleOnlyDoc hp).2.2.2.1,
    (missing_fields_take_defaults roleOnlyDoc hp).2.2.2.2⟩

end DSV4L2
